import Mathlib

/-!
Verification development for the feedback auto-tagging core of the
`automated-llm-insight-discovery-framework` repository.

The definitions below are a shallow embedding of the Python handlers
`auto_tag/lambdas/invoke_bedrock_and_save/handler.py` and
`auto_tag/lambdas/invoke_bedrock_and_save/utils/bedrock.py`:

* `reconcile` embeds the inline tag-reconciliation loop of `lambda_handler`
  (handler.py lines 217-223);
* `search_most_similar_item_from_db` embeds the similarity lookup
  (handler.py lines 276-325), with external effects (embedding call, SQL
  query evaluation) passed in as `Except`-valued parameters;
* `pysliceTag` / `get_tag_from_model_parse` embed the response parsing of
  `get_tag_from_model` (bedrock.py lines 86-97), i.e. the Python expression
  `[t.strip() for t in text[5:-6].split(",") if t.strip()]`;
* `parse_content` embeds the regex helper of the same name
  (handler.py lines 328-351);
* `processItem` / `processBatch` / `lambda_handler_run` embed the per-item
  loop and batch accounting of `lambda_handler` (lines 169-239);
* `save_data_to_rds_in_batch` embeds the bulk persistence function
  (lines 241-271), with the database modelled as explicit state and the
  possibility of an insert exception modelled by a `fail` predicate.
-/

/-- `TAG_UNKNOWN = "unknown"` (handler.py line 89). -/
def TAG_UNKNOWN : String := "unknown"

/-! ## The reconciliation loop (handler.py lines 217-223)

```python
updated_tags = []
for tag in tags:
    if (tag not in categories) and tag != TAG_UNKNOWN:
        updated_tag = search_most_similar_item_from_db(cursor, tags[0])
    elif (tag in categories):
        updated_tags.append(tag)
temp["tags"] = ",".join(updated_tags)
```

The loop state is `updated_tags` plus, for observability, the list of
arguments the similarity lookup was invoked with (`queries`) and the value
of the local variable `updated_tag` (which the source assigns but never
reads). -/

structure ReconcileResult where
  updated_tags : List String
  queries : List String
  updated_tag : Option String
deriving DecidableEq

/-- One iteration of the loop body; `first` is `tags[0]`, the argument the
source passes to the lookup on the unrecognized-tag branch. -/
def reconcileStep (lookup : String → String) (categories : List String)
    (first : String) (acc : ReconcileResult) (tag : String) : ReconcileResult :=
  if ¬ tag ∈ categories ∧ tag ≠ TAG_UNKNOWN then
    { acc with queries := acc.queries ++ [first], updated_tag := some (lookup first) }
  else if tag ∈ categories then
    { acc with updated_tags := acc.updated_tags ++ [tag] }
  else acc

/-- The whole loop.  `tags[0]` is only evaluated inside the loop body, so for
an empty candidate list the default of `headD` is never reached. -/
def reconcile (lookup : String → String) (categories : List String)
    (tags : List String) : ReconcileResult :=
  tags.foldl (reconcileStep lookup categories (tags.headD "")) ⟨[], [], none⟩

/-- Boolean form of the unrecognized-non-sentinel test of the first branch. -/
def isUnrecognized (categories : List String) (tag : String) : Bool :=
  decide (¬ tag ∈ categories ∧ tag ≠ TAG_UNKNOWN)


/-! ## The similarity lookup (handler.py lines 276-325)

```python
def search_most_similar_item_from_db(cursor, not_exist_tag):
    try:
        embedding_vector = get_embedding_from_text(not_exist_tag)
        query = \"\"\"SELECT id, category_name, category_vector <=> %s AS distance
                 FROM customer_feedback_category
                 WHERE category_vector <=> %s < 0.4
                 ORDER BY distance ASC LIMIT 1;\"\"\"
        cursor.execute(query, ...); row = cursor.fetchone()
        if row: return row[1]
        else:   return TAG_UNKNOWN
    except Exception:
        return TAG_UNKNOWN
```

The embedding call and the SQL evaluation are the two effectful steps, each
of which may raise; they are passed in as `Except`-valued functions.  The SQL
query itself is embedded as `sqlNearestRow`: among the category rows whose
distance to the query vector is strictly below 0.4, the one of minimal
distance. -/

/-- One row of `customer_feedback_category` together with the distance
`category_vector <=> query_vector` computed by the database for a given
query vector. -/
structure CategoryRow where
  id : Nat
  category_name : String
  distance : ℚ
deriving DecidableEq

/-- `WHERE category_vector <=> %s < 0.4 ORDER BY distance ASC LIMIT 1`:
the minimal-distance row among those with distance < 0.4, if any. -/
def sqlNearestRow (rows : List CategoryRow) : Option CategoryRow :=
  (rows.filter (fun r => decide (r.distance < mkRat 4 10))).argmin CategoryRow.distance

/-- `search_most_similar_item_from_db`, with `embed` standing for
`get_embedding_from_text` and `fetchRows` for the database computing the
distances of all category rows to the query vector (either may raise). -/
def search_most_similar_item_from_db
    (embed : String → Except String (List ℚ))
    (fetchRows : List ℚ → Except String (List CategoryRow))
    (not_exist_tag : String) : String :=
  match embed not_exist_tag with
  | .error _ => TAG_UNKNOWN
  | .ok v =>
    match fetchRows v with
    | .error _ => TAG_UNKNOWN
    | .ok rows =>
      match sqlNearestRow rows with
      | some row => row.category_name
      | none => TAG_UNKNOWN


/-! ## Python string primitives

`get_tag_from_model` and `save_data_to_rds_in_batch` use Python's
`str.split(",")`, `str.strip()`, `",".join(...)` and the slice `s[5:-6]`.
These are embedded below, character-exactly, over `String.data`. -/

/-- Accumulator pass of Python `s.split(",")`: fields are separated at every
comma, empty fields are kept, and the empty string yields `[""]`. -/
def splitCommaAux : List Char → List Char → List (List Char)
  | [], acc => [acc.reverse]
  | c :: cs, acc =>
    if c = ',' then acc.reverse :: splitCommaAux cs []
    else splitCommaAux cs (c :: acc)

/-- Python `s.split(",")`. -/
def pySplitComma (s : String) : List String :=
  (splitCommaAux s.data []).map List.asString

/-- Python `s.strip()`: drop leading and trailing whitespace. -/
def pyStrip (s : String) : String :=
  ((s.data.dropWhile Char.isWhitespace).reverse.dropWhile Char.isWhitespace).reverse.asString

/-- Python `",".join(l)`. -/
def pyJoinComma (l : List String) : String :=
  (List.intercalate [','] (l.map String.data)).asString

/-- Python `s[5:-6]`: the characters from index 5 up to (but excluding)
index `len(s) - 6`, clamped to the empty string when the bounds cross. -/
def pysliceTag (s : String) : String :=
  ((s.data.drop 5).take ((s.data.drop 5).length - 6)).asString

/-! ## Response parsing in `get_tag_from_model` (bedrock.py lines 86-97)

```python
tags = response_body["content"][0]["text"][5:-6].split(",")
return [tag.strip() for tag in tags if tag.strip()]
```

Both branches of the `if "claude-3" in chat_model` conditional execute the
same slice-based extraction, so the parse is a single function of the
response text.  There is no delimiter search and no length cap. -/

/-- The list comprehension `[t.strip() for t in pieces if t.strip()]`. -/
def cleanTags (pieces : List String) : List String :=
  (pieces.filter (fun p => pyStrip p ≠ "")).map pyStrip

/-- The tag-list extraction `get_tag_from_model` applies to the model's
response text. -/
def get_tag_from_model_parse (text : String) : List String :=
  cleanTags (pySplitComma (pysliceTag text))

/-! ## `parse_content` (handler.py lines 328-351)

```python
def search_tag(tag, default):
    pattern = "<tag>(.*?)</tag>"   # f-string over the tag name
    result = re.search(pattern, xml_string, re.DOTALL)
    return result.group(1) if result else default
tag_content = search_tag("tag", TAG_UNKNOWN)
```

The non-greedy first match of `<tag>(.*?)</tag>` is the content between the
first occurrence of `<tag>` and the first occurrence of `</tag>` after it;
if either delimiter is missing the default `TAG_UNKNOWN` is returned. -/

/-- Index of the first occurrence of `pat` in `l`, if any. -/
def firstOccurrence (pat : List Char) : List Char → Option Nat
  | [] => if pat = [] then some 0 else none
  | c :: cs =>
    if pat.isPrefixOf (c :: cs) then some 0
    else (firstOccurrence pat cs).map (· + 1)

/-- `parse_content` restricted to the `<tag>` search the handler performs. -/
def parse_content (xml_string : String) : String :=
  match firstOccurrence "<tag>".data xml_string.data with
  | none => TAG_UNKNOWN
  | some i =>
    let rest := xml_string.data.drop (i + 5)
    match firstOccurrence "</tag>".data rest with
    | none => TAG_UNKNOWN
    | some j => (rest.take j).asString

/-! ## Per-item processing and batch accounting (handler.py lines 169-239)

The per-item loop body validates the feedback text, calls the model, parses
the optional date, builds the row dictionary, runs the reconciliation loop
and appends the row; any exception is caught at the loop boundary and
counted in `failure`.  The external effects (model call, date parsing,
similarity lookup) are passed in as function parameters; the two fallible
ones return `Except`. -/

/-- A JSON field value as the handler sees it: a string, or some non-string
value (`isinstance(feedback_comment, str)` is false for the latter). -/
inductive PyVal
  | str (s : String)
  | nonstr
deriving DecidableEq

/-- One entry of `event["Items"]`.  `none` fields are absent keys; `get`
defaults them as in the source. -/
structure FeedbackItem where
  feedback : Option PyVal
  title : String
  date : Option String
  stars : String
  store : String
  product_name : String
  ref_id : String
deriving DecidableEq

/-- The `temp` dictionary appended to `data` (handler.py lines 203-213). -/
structure ItemData where
  feedback : String
  tags : String
  execution_id : String
  stars : String
  store : String
  title : String
  create_date : Option String
  product_name : String
  ref_id : String
deriving DecidableEq

/-- Which step of the loop body raised. -/
inductive ItemError
  | invalidInput
  | modelError
  | dateError
deriving DecidableEq

/-- The loop body for one item.  Returns the outcome together with a flag
recording whether `get_tag_from_model` (the external generation service)
was invoked. -/
def processItem (classify : String → String → Except Unit (List String))
    (parseDate : String → Except Unit String) (lookup : String → String)
    (categories : List String) (execution_name : String) (item : FeedbackItem) :
    Except ItemError ItemData × Bool :=
  match item.feedback.getD (PyVal.str "") with
  | .nonstr => (.error .invalidInput, false)
  | .str body =>
    if body = "" then (.error .invalidInput, false)
    else
      match classify item.title body with
      | .error _ => (.error .modelError, true)
      | .ok tags =>
        match (match item.date with
               | some d => if d = "" then .ok (some d) else (parseDate d).map some
               | none => Except.ok none : Except Unit (Option String)) with
        | .error _ => (.error .dateError, true)
        | .ok create_date =>
          (.ok { feedback := body,
                 tags := pyJoinComma (reconcile lookup categories tags).updated_tags,
                 execution_id := execution_name, stars := item.stars,
                 store := item.store, title := item.title,
                 create_date := create_date, product_name := item.product_name,
                 ref_id := item.ref_id }, true)

/-- `True` when the loop body completes without raising. -/
def itemOk (classify : String → String → Except Unit (List String))
    (parseDate : String → Except Unit String) (lookup : String → String)
    (categories : List String) (execution_name : String) (item : FeedbackItem) : Bool :=
  (processItem classify parseDate lookup categories execution_name item).1.isOk

/-- One iteration of the item loop over the state
`(data, success, failure)`: the `try` block appends to `data` and bumps
`success`, the `except` arm bumps `failure`. -/
def processStep (classify : String → String → Except Unit (List String))
    (parseDate : String → Except Unit String) (lookup : String → String)
    (categories : List String) (execution_name : String)
    (acc : List ItemData × Nat × Nat) (item : FeedbackItem) :
    List ItemData × Nat × Nat :=
  match (processItem classify parseDate lookup categories execution_name item).1 with
  | .ok d => (acc.1 ++ [d], acc.2.1 + 1, acc.2.2)
  | .error _ => (acc.1, acc.2.1, acc.2.2 + 1)

/-- The item loop: accumulates `data` and the `success` / `failure`
counters. -/
def processBatch (classify : String → String → Except Unit (List String))
    (parseDate : String → Except Unit String) (lookup : String → String)
    (categories : List String) (execution_name : String)
    (items : List FeedbackItem) : List ItemData × Nat × Nat :=
  items.foldl (processStep classify parseDate lookup categories execution_name) ([], 0, 0)

/-! ## Bulk persistence (handler.py lines 241-271)

```python
def save_data_to_rds_in_batch(rds_conn, data):
    with rds_conn.cursor() as cursor:
        try:
            for item in data:
                feedback_ids = execute_values(cursor, feedback_insert_query, ..., fetch=True)
                feedback_id = feedback_ids[0]
                tags = item["tags"].split(",")
                for tag in tags:
                    execute_values(cursor, tag_insert_query, [(feedback_id, tag)])
                rds_conn.commit()
            return True
        except Exception:
            rds_conn.rollback()
            return False
```

Note the `rds_conn.commit()` INSIDE the per-item loop: each item's rows are
committed before the next item is attempted, and the terminal `rollback()`
only discards the rows of the item whose insert raised.  The database is
modelled as the committed rows; an insert exception for an item is modelled
by the predicate `fail`. -/

/-- The committed state of the two tables the function writes. -/
structure DbState where
  feedback_rows : List (Nat × ItemData)
  tag_rows : List (Nat × String)
deriving DecidableEq

/-- The id `RETURNING id` yields for the next feedback row. -/
def newFeedbackId (db : DbState) : Nat := db.feedback_rows.length + 1

/-- Insert (and commit) one item's feedback row and its tag rows — one tag
row per field of `item["tags"].split(",")`. -/
def applyItem (db : DbState) (item : ItemData) : DbState :=
  { feedback_rows := db.feedback_rows ++ [(newFeedbackId db, item)],
    tag_rows := db.tag_rows ++
      (pySplitComma item.tags).map (fun t => (newFeedbackId db, t)) }

/-- `save_data_to_rds_in_batch`: items are inserted and committed one by
one; the first failing item triggers the rollback of its own uncommitted
rows and the function returns `False`, with every earlier item's rows still
committed. -/
def save_data_to_rds_in_batch (fail : ItemData → Bool) (db : DbState) :
    List ItemData → Bool × DbState
  | [] => (true, db)
  | item :: rest =>
    if fail item then (false, db)
    else save_data_to_rds_in_batch fail (applyItem db item) rest

/-- The `sub_status` counters (handler.py lines 169-174; the constant
`request_id` field is omitted). -/
structure SubStatus where
  total : Nat
  success : Nat
  failure : Nat
deriving DecidableEq

/-- The final values of the `sub_status` counters together with the final
database state (handler.py lines 169-239). -/
def lambda_handler_run (classify : String → String → Except Unit (List String))
    (parseDate : String → Except Unit String) (lookup : String → String)
    (categories : List String) (execution_name : String)
    (fail : ItemData → Bool) (db : DbState) (items : List FeedbackItem) :
    SubStatus × DbState :=
  let pb := processBatch classify parseDate lookup categories execution_name items
  if pb.1.length > 0 then
    let sv := save_data_to_rds_in_batch fail db pb.1
    if sv.1 then (⟨items.length, pb.2.1, pb.2.2⟩, sv.2)
    else (⟨items.length, 0, items.length⟩, sv.2)
  else (⟨items.length, pb.2.1, pb.2.2⟩, db)

deriving instance DecidableEq for Except

/-! ## Concrete instances used by witnesses and counterexamples -/

/-- A classifier stub that always answers the sentinel. -/
def clConst : String → String → Except Unit (List String) := fun _ _ => .ok ["unknown"]

/-- A date parser stub that succeeds verbatim. -/
def pdId : String → Except Unit String := fun d => .ok d

/-- A lookup stub that always answers the sentinel. -/
def lkUnknown : String → String := fun _ => TAG_UNKNOWN

/-- An embedding call that raises. -/
def embedErr : String → Except String (List ℚ) := fun _ => .error "boom"

/-- An embedding call that succeeds with a fixed vector. -/
def embedOk : String → Except String (List ℚ) := fun _ => .ok [1]

/-- A database read with no category rows. -/
def fetchEmpty : List ℚ → Except String (List CategoryRow) := fun _ => .ok []

/-- A database read whose only category row is `"Shipping Issue"` at
distance 0.2 from every query vector. -/
def fetchShipping : List ℚ → Except String (List CategoryRow) :=
  fun _ => .ok [⟨1, "Shipping Issue", mkRat 2 10⟩]

/-- A feedback item with valid text. -/
def goodItem : FeedbackItem := ⟨some (.str "great product"), "t", none, "", "", "", ""⟩

/-- A feedback item whose `feedback` field is the empty string. -/
def badItem : FeedbackItem := ⟨some (.str ""), "t", none, "", "", "", ""⟩

/-- A batch of five items, the last of which has invalid feedback. -/
def items5 : List FeedbackItem := [goodItem, goodItem, goodItem, goodItem, badItem]

/-- The empty database. -/
def db0 : DbState := ⟨[], []⟩

/-- A processed row whose insert succeeds. -/
def rowA : ItemData := ⟨"fa", "", "e", "", "", "t", none, "", ""⟩

/-- A processed row whose insert raises. -/
def rowB : ItemData := ⟨"fb", "", "e", "", "", "t", none, "", ""⟩

/-- Insert failure on `rowB` only. -/
def failRowB : ItemData → Bool := fun it => it.feedback == "fb"

theorem processBatch_foldl_char (cl : String → String → Except Unit (List String))
    (pd : String → Except Unit String) (lk : String → String)
    (cats : List String) (ex : String) :
    ∀ (items : List FeedbackItem) (acc : List ItemData × Nat × Nat),
      items.foldl (processStep cl pd lk cats ex) acc =
        (acc.1 ++ items.filterMap (fun it => ((processItem cl pd lk cats ex it).1).toOption),
         acc.2.1 + items.countP (itemOk cl pd lk cats ex),
         acc.2.2 + items.countP (fun it => ! itemOk cl pd lk cats ex it)) := by
  intro items
  induction items with
  | nil => intro acc; simp
  | cons it rest ih =>
    intro acc
    rw [List.foldl_cons, ih]
    unfold processStep itemOk
    cases h : (processItem cl pd lk cats ex it).1 with
    | ok d =>
      simp only [h, List.filterMap_cons, Except.toOption, List.countP_cons, Except.isOk]
      refine Prod.ext ?_ (Prod.ext ?_ ?_)
      all_goals simp [h, Except.isOk, Except.toBool]
      all_goals omega
    | error e =>
      simp only [h, List.filterMap_cons, Except.toOption, List.countP_cons, Except.isOk]
      refine Prod.ext ?_ (Prod.ext ?_ ?_)
      all_goals simp [h, Except.isOk, Except.toBool]
      all_goals omega

/-- Closed form of the item loop: `data` collects the successfully processed
rows in order, `success` counts the items whose loop body completed, and
`failure` counts the items whose loop body raised. -/
theorem processBatch_eq (cl : String → String → Except Unit (List String))
    (pd : String → Except Unit String) (lk : String → String)
    (cats : List String) (ex : String) (items : List FeedbackItem) :
    processBatch cl pd lk cats ex items =
      (items.filterMap (fun it => ((processItem cl pd lk cats ex it).1).toOption),
       items.countP (itemOk cl pd lk cats ex),
       items.countP (fun it => ! itemOk cl pd lk cats ex it)) := by
  unfold processBatch
  rw [processBatch_foldl_char]
  simp

/-- Closed form of the persistence function: the items up to (excluding) the
first failing one are committed, and the result is `True` exactly when no
item fails. -/
theorem save_data_spec (fail : ItemData → Bool) :
    ∀ (data : List ItemData) (db : DbState),
      save_data_to_rds_in_batch fail db data =
        (data.all (fun it => ! fail it),
         (data.takeWhile (fun it => ! fail it)).foldl applyItem db) := by
  intro data
  induction data with
  | nil => intro db; simp [save_data_to_rds_in_batch]
  | cons it rest ih =>
    intro db
    by_cases h : fail it = true
    · simp [save_data_to_rds_in_batch, h]
    · simp only [Bool.not_eq_true] at h
      simp [save_data_to_rds_in_batch, h, ih]

/-! ## Loop and lookup characterization lemmas -/

theorem reconcile_foldl_updated_tags (lookup : String → String)
    (categories : List String) (first : String) :
    ∀ (l : List String) (acc : ReconcileResult),
      (l.foldl (reconcileStep lookup categories first) acc).updated_tags =
        acc.updated_tags ++ l.filter (fun t => decide (t ∈ categories)) := by
  intro l
  induction l with
  | nil => intro acc; simp
  | cons t l ih =>
    intro acc
    rw [List.foldl_cons, ih, List.filter_cons]
    unfold reconcileStep
    by_cases h1 : ¬ t ∈ categories ∧ t ≠ TAG_UNKNOWN
    · have : ¬ t ∈ categories := h1.1
      simp [h1, this]
    · by_cases h2 : t ∈ categories
      · simp [h1, h2]
      · have ht : t = TAG_UNKNOWN := by
          by_contra hne
          exact h1 ⟨h2, hne⟩
        subst ht
        simp [h1, h2]

theorem reconcile_foldl_queries (lookup : String → String)
    (categories : List String) (first : String) :
    ∀ (l : List String) (acc : ReconcileResult),
      (l.foldl (reconcileStep lookup categories first) acc).queries =
        acc.queries ++ (l.filter (isUnrecognized categories)).map (fun _ => first) := by
  intro l
  induction l with
  | nil => intro acc; simp
  | cons t l ih =>
    intro acc
    rw [List.foldl_cons, ih, List.filter_cons]
    unfold reconcileStep isUnrecognized
    by_cases h1 : ¬ t ∈ categories ∧ t ≠ TAG_UNKNOWN
    · simp [h1]
    · by_cases h2 : t ∈ categories
      · simp [h1, h2]
      · have ht : t = TAG_UNKNOWN := by
          by_contra hne
          exact h1 ⟨h2, hne⟩
        subst ht
        simp [h1, h2]

/-- Closed form of the accepted-tag list: exactly the candidates that are
members of the category list, in order. -/
theorem reconcile_updated_tags (lookup : String → String)
    (categories : List String) (tags : List String) :
    (reconcile lookup categories tags).updated_tags =
      tags.filter (fun t => decide (t ∈ categories)) := by
  unfold reconcile
  rw [reconcile_foldl_updated_tags]
  simp

/-- Closed form of the lookup-argument log: one entry per unrecognized
non-sentinel candidate, each equal to `tags[0]`. -/
theorem reconcile_queries (lookup : String → String)
    (categories : List String) (tags : List String) :
    (reconcile lookup categories tags).queries =
      (tags.filter (isUnrecognized categories)).map (fun _ => tags.headD "") := by
  unfold reconcile
  rw [reconcile_foldl_queries]
  simp

/-- The accepted tags never depend on what the lookup returns: its result is
stored in the write-only local `updated_tag` and discarded. -/
theorem reconcile_updated_tags_lookup_irrelevant (lookup₁ lookup₂ : String → String)
    (categories : List String) (tags : List String) :
    (reconcile lookup₁ categories tags).updated_tags =
      (reconcile lookup₂ categories tags).updated_tags := by
  rw [reconcile_updated_tags, reconcile_updated_tags]

theorem sqlNearestRow_mem {rows : List CategoryRow} {row : CategoryRow}
    (h : sqlNearestRow rows = some row) :
    row ∈ rows ∧ row.distance < mkRat 4 10 ∧
      ∀ r ∈ rows, r.distance < mkRat 4 10 → row.distance ≤ r.distance := by
  unfold sqlNearestRow at h
  have hmem := List.argmin_mem h
  rw [List.mem_filter] at hmem
  refine ⟨hmem.1, by simpa using hmem.2, ?_⟩
  intro r hr hrd
  exact List.le_of_mem_argmin (by rw [List.mem_filter]; exact ⟨hr, by simpa using hrd⟩) h

/-! ## Claim theorems -/

/-- Claim C1.  The claim says that when the similarity lookup returns a
match, the matched category name is added to the accepted tag set, so that
`reconcile(["Weird Tag"], {"Shipping Issue"}, lookup)` with the lookup
matching `("Shipping Issue", 0.2)` yields `{"Shipping Issue"}`.  The code
contradicts this: at exactly that input the lookup does return
`"Shipping Issue"` (first conjunct, through the real lookup embedding with a
category row at distance 0.2), the loop stores it in the local variable
`updated_tag` (second conjunct) — and then never reads it, so the accepted
set is empty and the persisted tag string is `""` (last two conjuncts). -/
theorem c1_lookup_match_discarded :
    search_most_similar_item_from_db embedOk fetchShipping "Weird Tag" = "Shipping Issue" ∧
    (reconcile (search_most_similar_item_from_db embedOk fetchShipping)
        ["Shipping Issue"] ["Weird Tag"]).updated_tag = some "Shipping Issue" ∧
    (reconcile (search_most_similar_item_from_db embedOk fetchShipping)
        ["Shipping Issue"] ["Weird Tag"]).updated_tags = [] ∧
    pyJoinComma (reconcile (search_most_similar_item_from_db embedOk fetchShipping)
        ["Shipping Issue"] ["Weird Tag"]).updated_tags = "" := by
  refine ⟨?_, ?_, ?_, ?_⟩ <;> decide

/-- Claim C2.  Every invocation of the similarity lookup inside the
reconciliation loop passes `tags[0]` — the first element of the whole
candidate list — as the query text: the argument log equals one copy of
`tags.headD ""` per unrecognized non-sentinel position, regardless of which
tag triggered the lookup. -/
theorem c2_lookup_uses_first_candidate (lookup : String → String)
    (categories : List String) (tags : List String) :
    (reconcile lookup categories tags).queries =
      (tags.filter (isUnrecognized categories)).map (fun _ => tags.headD "") :=
  reconcile_queries lookup categories tags

/-- Claim C9, counterexample.  The claim quantifies over every
allowed-category set and states that the sentinel `"unknown"` contributes
nothing and is never in the accepted set; but when `"unknown"` is itself a
member of the allowed categories the loop accepts it verbatim. -/
theorem c9_counterexample :
    (reconcile lkUnknown [TAG_UNKNOWN] [TAG_UNKNOWN]).updated_tags = [TAG_UNKNOWN] ∧
    TAG_UNKNOWN ∈ (reconcile lkUnknown [TAG_UNKNOWN] [TAG_UNKNOWN]).updated_tags := by
  refine ⟨?_, ?_⟩ <;> decide

/-- Claim C9 as amended: provided the sentinel `"unknown"` is not itself a
member of the allowed categories, `reconcile` adds verbatim every candidate
tag that is a member of the allowed categories, every member of the accepted
set is a name present in the allowed categories, the accepted set never
contains `"unknown"`, and the lookup is invoked exactly once per
unrecognized non-sentinel position (hence never for members or for the
sentinel). -/
theorem c9_amended_reconcile_invariants (lookup : String → String)
    (categories : List String) (tags : List String)
    (h : TAG_UNKNOWN ∉ categories) :
    (∀ t ∈ tags, t ∈ categories → t ∈ (reconcile lookup categories tags).updated_tags) ∧
    (∀ t ∈ (reconcile lookup categories tags).updated_tags, t ∈ categories) ∧
    TAG_UNKNOWN ∉ (reconcile lookup categories tags).updated_tags ∧
    (reconcile lookup categories tags).queries.length =
      (tags.filter (isUnrecognized categories)).length := by
  rw [reconcile_updated_tags, reconcile_queries]
  refine ⟨?_, ?_, ?_, by simp⟩
  · intro t ht htc
    rw [List.mem_filter]
    exact ⟨ht, by simpa⟩
  · intro t ht
    rw [List.mem_filter] at ht
    simpa using ht.2
  · intro hmem
    rw [List.mem_filter] at hmem
    exact h (by simpa using hmem.2)

/-- Claim C9 witness: a concrete run with the sentinel absent from the
category list, exercising the amended theorem. -/
theorem c9_amended_witness :
    TAG_UNKNOWN ∉ (["Shipping Issue", "Billing"] : List String) ∧
    TAG_UNKNOWN ∉ (reconcile lkUnknown ["Shipping Issue", "Billing"]
      ["Shipping Issue", "unknown"]).updated_tags :=
  ⟨by decide, (c9_amended_reconcile_invariants lkUnknown ["Shipping Issue", "Billing"]
    ["Shipping Issue", "unknown"] (by decide)).2.2.1⟩

theorem pysliceTag_wrap (inner : String) :
    pysliceTag ("<tag>" ++ inner ++ "</tag>") = inner := by
  unfold pysliceTag
  rw [String.data_append, String.data_append]
  have h5 : ("<tag>".data).length = 5 := rfl
  have hdrop : ("<tag>".data ++ inner.data ++ "</tag>".data).drop 5 =
      inner.data ++ "</tag>".data := by
    rw [List.append_assoc, ← h5]
    exact List.drop_left _ _
  rw [hdrop]
  have hlen : (inner.data ++ "</tag>".data).length - 6 = inner.data.length := by
    simp [List.length_append]
  rw [hlen, List.take_left]
  exact String.asString_toList inner

theorem cleanTags_mem {pieces : List String} {t : String} (h : t ∈ cleanTags pieces) :
    t ≠ "" ∧ ∃ p ∈ pieces, t = pyStrip p := by
  unfold cleanTags at h
  rw [List.mem_map] at h
  obtain ⟨p, hp, rfl⟩ := h
  rw [List.mem_filter] at hp
  exact ⟨by simpa using hp.2, p, hp.1, rfl⟩

theorem cleanTags_length (pieces : List String) :
    (cleanTags pieces).length =
      (pieces.filter (fun p => decide (pyStrip p ≠ ""))).length := by
  unfold cleanTags
  rw [List.length_map]

/-- Claim C3, counterexample.  The claim says that on a raw model response
without the `<tag>...</tag>` delimiter pair, `classify` fails with a
`MalformedModelResponseError` rather than returning a tag list.  The code
never searches for the delimiters: it blindly removes the first 5 and last 6
characters of the response text, so on the delimiter-free input
`"no delimiters here"` it returns the tag list `["limiter"]` — no failure of
any kind.  (The separate helper `parse_content`, which does search for the
first delimiter pair, also does not fail: it returns the default
`TAG_UNKNOWN`.) -/
theorem c3_counterexample :
    get_tag_from_model_parse "no delimiters here" = ["limiter"] ∧
    parse_content "no delimiters here" = TAG_UNKNOWN := by
  refine ⟨?_, ?_⟩ <;> decide

/-- Claim C3 as amended: `classify` extracts the tag text by fixed-position
slicing — dropping the first 5 and the last 6 characters, the positions at
which `<tag>` and `</tag>` are expected — without verifying their presence.
When the delimiters do wrap the text this returns the cleaned comma-split of
the inner text; when the delimiter pair is absent `classify` does not fail
but returns the cleaned comma-split of the blindly sliced text (e.g.
`["limiter"]` for `"no delimiters here"`), and the unused helper
`parse_content` returns the default sentinel `"unknown"` instead of raising. -/
theorem c3_amended_slice_parse (inner : String) :
    pysliceTag ("<tag>" ++ inner ++ "</tag>") = inner ∧
    get_tag_from_model_parse ("<tag>" ++ inner ++ "</tag>") =
      cleanTags (pySplitComma inner) ∧
    get_tag_from_model_parse "no delimiters here" = ["limiter"] ∧
    parse_content "no delimiters here" = TAG_UNKNOWN := by
  refine ⟨pysliceTag_wrap inner, ?_, by decide, by decide⟩
  unfold get_tag_from_model_parse
  rw [pysliceTag_wrap]

/-- Claim C8, counterexample.  The claim bounds the length of the returned
sequence by 3 for every model response; but the code never enforces the
"up to three" instruction of the prompt: a response with four comma-separated
entries yields four tags. -/
theorem c8_counterexample :
    get_tag_from_model_parse "<tag>a,b,c,d</tag>" = ["a", "b", "c", "d"] ∧
    ¬ (get_tag_from_model_parse "<tag>a,b,c,d</tag>").length ≤ 3 := by
  refine ⟨?_, ?_⟩ <;> decide

/-- Claim C8 as amended: every member of the returned sequence is the
whitespace-trimmed form of one of the comma-separated pieces and is
non-empty, but the length is not capped at 3 — it equals the number of
pieces whose trimmed content is non-empty, however many the response
contains. -/
theorem c8_amended_no_length_cap (text t : String)
    (h : t ∈ get_tag_from_model_parse text) :
    t ≠ "" ∧ (∃ p ∈ pySplitComma (pysliceTag text), t = pyStrip p) ∧
    (get_tag_from_model_parse text).length =
      ((pySplitComma (pysliceTag text)).filter (fun p => decide (pyStrip p ≠ ""))).length := by
  have hm := cleanTags_mem h
  exact ⟨hm.1, hm.2, cleanTags_length _⟩

/-- Claim C8 witness: the amended theorem applied to a concrete response
with whitespace-padded pieces. -/
theorem c8_amended_witness :
    ("a" : String) ∈ get_tag_from_model_parse "<tag> a , b </tag>" ∧
    (("a" : String) ≠ "" ∧
      (∃ p ∈ pySplitComma (pysliceTag "<tag> a , b </tag>"), "a" = pyStrip p) ∧
      (get_tag_from_model_parse "<tag> a , b </tag>").length =
        ((pySplitComma (pysliceTag "<tag> a , b </tag>")).filter
          (fun p => decide (pyStrip p ≠ ""))).length) :=
  ⟨by decide, c8_amended_no_length_cap "<tag> a , b </tag>" "a" (by decide)⟩

theorem lambda_handler_run_status (cl : String → String → Except Unit (List String))
    (pd : String → Except Unit String) (lk : String → String)
    (cats : List String) (ex : String) (fail : ItemData → Bool) (db : DbState)
    (items : List FeedbackItem) :
    (lambda_handler_run cl pd lk cats ex fail db items).1 =
      if (processBatch cl pd lk cats ex items).1 ≠ [] ∧
          (save_data_to_rds_in_batch fail db (processBatch cl pd lk cats ex items).1).1 = false
      then ⟨items.length, 0, items.length⟩
      else ⟨items.length, (processBatch cl pd lk cats ex items).2.1,
            (processBatch cl pd lk cats ex items).2.2⟩ := by
  unfold lambda_handler_run
  by_cases hlen : (processBatch cl pd lk cats ex items).1.length > 0
  · have hne : (processBatch cl pd lk cats ex items).1 ≠ [] := by
      intro hnil
      rw [hnil] at hlen
      simp at hlen
    cases hsv : (save_data_to_rds_in_batch fail db (processBatch cl pd lk cats ex items).1).1
    · simp [hlen, hsv, hne]
    · simp [hlen, hsv, hne]
  · have hnil : (processBatch cl pd lk cats ex items).1 = [] := by
      rcases List.eq_nil_or_concat (processBatch cl pd lk cats ex items).1 with h | ⟨l, a, h⟩
      · exact h
      · exfalso
        apply hlen
        rw [h]
        simp
    simp [hlen, hnil]

/-- Claim C4.  The summary counters: `total` is the number of items
received; with persistence succeeding (or never attempted), `success` counts
the items whose loop body completed without raising and `failure` counts the
items that raised; and when the bulk persistence step runs and fails,
`success` is zeroed and `failure` is set to `total`. -/
theorem c4_batch_accounting (cl : String → String → Except Unit (List String))
    (pd : String → Except Unit String) (lk : String → String)
    (cats : List String) (ex : String) (fail : ItemData → Bool) (db : DbState)
    (items : List FeedbackItem) :
    (lambda_handler_run cl pd lk cats ex fail db items).1.total = items.length ∧
    ((save_data_to_rds_in_batch fail db (processBatch cl pd lk cats ex items).1).1 = true →
      (lambda_handler_run cl pd lk cats ex fail db items).1.success =
        items.countP (itemOk cl pd lk cats ex) ∧
      (lambda_handler_run cl pd lk cats ex fail db items).1.failure =
        items.countP (fun it => ! itemOk cl pd lk cats ex it)) ∧
    ((processBatch cl pd lk cats ex items).1 ≠ [] →
      (save_data_to_rds_in_batch fail db (processBatch cl pd lk cats ex items).1).1 = false →
      (lambda_handler_run cl pd lk cats ex fail db items).1.success = 0 ∧
      (lambda_handler_run cl pd lk cats ex fail db items).1.failure = items.length) := by
  have hs : (processBatch cl pd lk cats ex items).2.1 =
      items.countP (itemOk cl pd lk cats ex) := by rw [processBatch_eq]
  have hf : (processBatch cl pd lk cats ex items).2.2 =
      items.countP (fun it => ! itemOk cl pd lk cats ex it) := by rw [processBatch_eq]
  refine ⟨?_, ?_, ?_⟩
  · rw [lambda_handler_run_status]
    split_ifs <;> rfl
  · intro hsv
    rw [lambda_handler_run_status]
    have hneg : ¬ ((processBatch cl pd lk cats ex items).1 ≠ [] ∧
        (save_data_to_rds_in_batch fail db (processBatch cl pd lk cats ex items).1).1 = false) := by
      rintro ⟨-, hfalse⟩
      rw [hsv] at hfalse
      cases hfalse
    rw [if_neg hneg]
    exact ⟨hs, hf⟩
  · intro hne hsv
    rw [lambda_handler_run_status, if_pos ⟨hne, hsv⟩]
    exact ⟨rfl, rfl⟩

/-- Claim C4 witness: a concrete batch of five items, one with invalid
feedback, under a persistence step that raises: the summary becomes
`{total: 5, success: 0, failure: 5}` (and without the persistence failure
the counters are 4 and 1, checked directly). -/
theorem c4_witness :
    ((processBatch clConst pdId lkUnknown ["A"] "e" items5).1 ≠ [] ∧
      (save_data_to_rds_in_batch (fun _ => true) db0
        (processBatch clConst pdId lkUnknown ["A"] "e" items5).1).1 = false ∧
      (lambda_handler_run clConst pdId lkUnknown ["A"] "e" (fun _ => false) db0 items5).1 =
        ⟨5, 4, 1⟩) ∧
    ((lambda_handler_run clConst pdId lkUnknown ["A"] "e" (fun _ => true) db0 items5).1.success = 0 ∧
      (lambda_handler_run clConst pdId lkUnknown ["A"] "e" (fun _ => true) db0 items5).1.failure =
        items5.length) :=
  ⟨⟨by decide, by decide, by decide⟩,
    (c4_batch_accounting clConst pdId lkUnknown ["A"] "e" (fun _ => true) db0 items5).2.2
      (by decide) (by decide)⟩

/-- Claim C5, counterexample.  The claim says the bulk write is one
transaction per batch, rolled back wholly on any exception so that the
database is unchanged on error.  In the code `rds_conn.commit()` sits inside
the per-item loop: with a two-row batch whose second insert raises, the
function reports failure yet the first row (and its tag row) remain
committed — the database state differs from the initial one. -/
theorem c5_counterexample :
    (save_data_to_rds_in_batch failRowB db0 [rowA, rowB]).1 = false ∧
    (save_data_to_rds_in_batch failRowB db0 [rowA, rowB]).2 ≠ db0 ∧
    (save_data_to_rds_in_batch failRowB db0 [rowA, rowB]).2.feedback_rows = [(1, rowA)] := by
  refine ⟨?_, ?_, ?_⟩ <;> decide

/-- Claim C5 as amended: the write commits once per item, not once per
batch.  On an exception only the failing item's uncommitted rows are
discarded: the final database state holds exactly the items before the first
failing one, and the function returns `True` exactly when no item's insert
raises. -/
theorem c5_amended_per_item_commit (fail : ItemData → Bool) (db : DbState)
    (data : List ItemData) :
    (save_data_to_rds_in_batch fail db data).2 =
      (data.takeWhile (fun it => ! fail it)).foldl applyItem db ∧
    ((save_data_to_rds_in_batch fail db data).1 = true ↔
      ∀ it ∈ data, fail it = false) := by
  rw [save_data_spec]
  refine ⟨rfl, ?_⟩
  simp [List.all_eq_true]

/-- Claim C5 witness: the amended theorem applied to the two-row batch of
the counterexample. -/
theorem c5_amended_witness :
    (save_data_to_rds_in_batch failRowB db0 [rowA, rowB]).2 =
      ([rowA, rowB].takeWhile (fun it => ! failRowB it)).foldl applyItem db0 :=
  (c5_amended_per_item_commit failRowB db0 [rowA, rowB]).1

/-- Claim C6.  The similarity lookup returns a (non-sentinel) match only for
a category row whose distance is strictly below 0.4 — and that row is
nearest among the rows under the threshold; and when the embedding call or
the database query raises, the error is absorbed and the lookup returns the
sentinel (the function is total: no error ever propagates to the caller). -/
theorem c6_similarity_threshold_and_errors (embed : String → Except String (List ℚ))
    (fetchRows : List ℚ → Except String (List CategoryRow)) (tag : String) :
    (∀ e, embed tag = .error e →
      search_most_similar_item_from_db embed fetchRows tag = TAG_UNKNOWN) ∧
    (∀ v e, embed tag = .ok v → fetchRows v = .error e →
      search_most_similar_item_from_db embed fetchRows tag = TAG_UNKNOWN) ∧
    (search_most_similar_item_from_db embed fetchRows tag ≠ TAG_UNKNOWN →
      ∃ v rows row, embed tag = .ok v ∧ fetchRows v = .ok rows ∧ row ∈ rows ∧
        row.distance < mkRat 4 10 ∧
        (∀ r ∈ rows, r.distance < mkRat 4 10 → row.distance ≤ r.distance) ∧
        search_most_similar_item_from_db embed fetchRows tag = row.category_name) := by
  refine ⟨?_, ?_, ?_⟩
  · intro e he
    unfold search_most_similar_item_from_db
    simp [he]
  · intro v e hv hf
    unfold search_most_similar_item_from_db
    simp [hv, hf]
  · intro hne
    unfold search_most_similar_item_from_db at hne ⊢
    cases hv : embed tag with
    | error e => simp [hv] at hne
    | ok v =>
      simp only [hv] at hne ⊢
      cases hf : fetchRows v with
      | error e => simp [hf] at hne
      | ok rows =>
        simp only [hf] at hne ⊢
        cases hrow : sqlNearestRow rows with
        | none => simp [hrow] at hne
        | some row =>
          simp only [hrow] at hne ⊢
          obtain ⟨hmem, hlt, hmin⟩ := sqlNearestRow_mem hrow
          exact ⟨v, rows, row, rfl, hf, hmem, hlt, hmin, rfl⟩

/-- Claim C6 witness: an embedding call that raises is absorbed into the
sentinel answer. -/
theorem c6_witness :
    search_most_similar_item_from_db embedErr fetchEmpty "Weird Tag" = TAG_UNKNOWN :=
  (c6_similarity_threshold_and_errors embedErr fetchEmpty "Weird Tag").1 "boom" rfl

/-- Claim C7.  For an item whose `feedback` field is absent, the empty
string, or a non-string value, the loop body raises `InvalidInput` before
the model call (the generation-service flag is `false`), and a batch of that
single item ends with `failure = 1` and `success = 0`. -/
theorem c7_invalid_input (cl : String → String → Except Unit (List String))
    (pd : String → Except Unit String) (lk : String → String)
    (cats : List String) (ex : String) (fail : ItemData → Bool) (db : DbState)
    (item : FeedbackItem)
    (h : item.feedback = none ∨ item.feedback = some (PyVal.str "") ∨
        item.feedback = some PyVal.nonstr) :
    processItem cl pd lk cats ex item = (.error .invalidInput, false) ∧
    (lambda_handler_run cl pd lk cats ex fail db [item]).1 = ⟨1, 0, 1⟩ := by
  have h1 : processItem cl pd lk cats ex item = (.error .invalidInput, false) := by
    unfold processItem
    rcases h with h | h | h <;> rw [h] <;> rfl
  refine ⟨h1, ?_⟩
  unfold lambda_handler_run processBatch
  rw [List.foldl_cons, List.foldl_nil]
  unfold processStep
  rw [h1]
  simp

/-- Claim C7 witness: the concrete empty-feedback item. -/
theorem c7_witness :
    (badItem.feedback = none ∨ badItem.feedback = some (PyVal.str "") ∨
      badItem.feedback = some PyVal.nonstr) ∧
    (processItem clConst pdId lkUnknown ["A"] "e" badItem = (.error .invalidInput, false) ∧
      (lambda_handler_run clConst pdId lkUnknown ["A"] "e" failRowB db0 [badItem]).1 =
        ⟨1, 0, 1⟩) :=
  ⟨by decide,
    c7_invalid_input clConst pdId lkUnknown ["A"] "e" failRowB db0 badItem (by decide)⟩

/-- Claim C10.  For an item whose accepted-tag string is empty,
`item["tags"].split(",")` yields `[""]`, so the persistence step inserts
exactly one tag row for the item, whose tag value is the empty string. -/
theorem c10_empty_tags_one_row (db : DbState) (item : ItemData) (h : item.tags = "") :
    (applyItem db item).tag_rows = db.tag_rows ++ [(newFeedbackId db, "")] ∧
    (save_data_to_rds_in_batch (fun _ => false) db [item]).2.tag_rows =
      db.tag_rows ++ [(newFeedbackId db, "")] := by
  have hsplit : pySplitComma item.tags = [""] := by
    rw [h]
    rfl
  have happly : (applyItem db item).tag_rows = db.tag_rows ++ [(newFeedbackId db, "")] := by
    unfold applyItem
    rw [hsplit]
    rfl
  refine ⟨happly, ?_⟩
  have hsave : save_data_to_rds_in_batch (fun _ => false) db [item] =
      (true, applyItem db item) := rfl
  rw [hsave]
  exact happly

/-- Claim C10 witness: the concrete row with an empty tag string inserted
into the empty database. -/
theorem c10_witness :
    rowA.tags = "" ∧
    (applyItem db0 rowA).tag_rows = db0.tag_rows ++ [(newFeedbackId db0, "")] :=
  ⟨by decide, (c10_empty_tags_one_row db0 rowA (by decide)).1⟩
